import Mathlib

/-!
Verification development for the value-translation core of zha-toolkit
(custom_components/zha_toolkit/utils.py): the scalar codec (str2int,
str2bool), the attribute encoder (attr_encode), the endpoint/cluster
resolvers (find_endpoint, get_cluster_from_params) and the parameter
normalizer (extractParams), shallowly embedded in Lean.

Python values flowing through these functions are modelled by the `Value`
inductive; fallible Python code (code that can raise) is modelled with
`Except String`.  Machine integers of the zigpy dependency (uint8_t,
int16s, ...) are modelled as range-checked constructions over Int/Nat.
-/

namespace ZhaToolkit

/-- A dynamically typed Python value as used by utils.py: None, int, str,
bool, bytes, or a list. -/
inductive Value where
  | none : Value
  | int : Int → Value
  | str : String → Value
  | bool : Bool → Value
  | bytes : List Nat → Value
  | list : List Value → Value

/-- Python `==` as used in utils.py.  Python treats bool as an int subtype,
so `True == 1` and `False == 0`.  Lists are never compared with `==` in the
embedded code (only against `""`, `0`, `1`), so list-list equality is not
modelled and returns false. -/
def pyEq : Value → Value → Bool
  | Value.int a, Value.int b => a == b
  | Value.int a, Value.bool b => a == (if b then (1 : Int) else 0)
  | Value.bool a, Value.int b => (if a then (1 : Int) else 0) == b
  | Value.bool a, Value.bool b => a == b
  | Value.str a, Value.str b => a == b
  | Value.bytes a, Value.bytes b => a == b
  | Value.none, Value.none => true
  | _, _ => false

/-- Python `x is None`. -/
def isNoneV : Value → Bool
  | Value.none => true
  | _ => false

/-- Python `type(x) == str`. -/
def isStrVal : Value → Bool
  | Value.str _ => true
  | _ => false

/-- Python `isinstance(x, int)` (true for bool as well, since Python bool
is a subclass of int). -/
def isIntLike : Value → Bool
  | Value.int _ => true
  | Value.bool _ => true
  | _ => false

/-- Python `x is True`. -/
def isTrueConst : Value → Bool
  | Value.bool true => true
  | _ => false

/-- Python `x is True or x is False`. -/
def isBoolConst : Value → Bool
  | Value.bool _ => true
  | _ => false

/-! ### Character helpers for the scalar codec

The tokens fed to str2int are ASCII service-parameter strings; `isnumeric`
is modelled as "all ASCII digits" (Python's str.isnumeric also accepts
non-ASCII Unicode numerics, which never occur in these parameters). -/

/-- ASCII decimal digit test. -/
def isAsciiDigit (c : Char) : Bool := decide (48 ≤ c.toNat ∧ c.toNat ≤ 57)

/-- Value of a digit character: 0-9, a-f, A-F; 255 for anything else. -/
def digitVal (c : Char) : Nat :=
  if 48 ≤ c.toNat ∧ c.toNat ≤ 57 then c.toNat - 48
  else if 97 ≤ c.toNat ∧ c.toNat ≤ 102 then c.toNat - 87
  else if 65 ≤ c.toNat ∧ c.toNat ≤ 70 then c.toNat - 55
  else 255

/-- Is `c` a valid digit in the given base (as accepted by Python's
`int(s, base)` for the bases 2, 8, 10, 16 used in str2int)? -/
def isBaseDigit (base : Nat) (c : Char) : Bool := decide (digitVal c < base)

/-- ASCII lower-casing of one character (Python str.lower on the ASCII
tokens used here). -/
def asciiLower (c : Char) : Char :=
  if 65 ≤ c.toNat ∧ c.toNat ≤ 90 then Char.ofNat (c.toNat + 32) else c

/-- Python s.lower() over the character list of s. -/
def strLower (cs : List Char) : List Char := cs.map asciiLower

/-- `begins p cs` holds when the character list `cs` starts with `p`
(Python s.startswith). -/
def begins : List Char → List Char → Bool
  | [], _ => true
  | _ :: _, [] => false
  | p :: ps, c :: cs => p == c && begins ps cs

/-- Python s.isnumeric() restricted to ASCII: non-empty and all digits. -/
def isnumeric (cs : List Char) : Bool := !cs.isEmpty && cs.all isAsciiDigit

/-- Error message produced by a failed Python `int(s, base)` conversion. -/
def parseErrMsg : String := "ValueError: invalid literal for int"

/-- Accumulating digit parser: the loop of Python `int(s, base)`. -/
def parseDigitsAux (base : Nat) : List Char → Nat → Except String Nat
  | [], acc => Except.ok acc
  | c :: cs, acc =>
    if isBaseDigit base c then parseDigitsAux base cs (acc * base + digitVal c)
    else Except.error parseErrMsg

/-- Python `int(s, base)` on a digit sequence (no sign, no whitespace,
no underscores — none of which occur in the token shapes str2int feeds
to `int`): empty input or an invalid digit raises ValueError. -/
def parseDigits (base : Nat) (cs : List Char) : Except String Nat :=
  match cs with
  | [] => Except.error parseErrMsg
  | _ => parseDigitsAux base cs 0

/-- Numeric value of a digit string in a base (specification-side helper
for stating parse results). -/
def digitsVal (base : Nat) (cs : List Char) : Nat :=
  cs.foldl (fun a c => a * base + digitVal c) 0

def falseChars : List Char := ['f', 'a', 'l', 's', 'e']
def trueChars : List Char := ['t', 'r', 'u', 'e']

/-- Embedding of utils.str2int (lines 66-82) on the character list of a
string argument.  The branch cascade mirrors the source exactly:
false/true, 0x/0X hex, leading-0 octal, b-prefixed binary, decimal,
otherwise the original string.  For the hex branch Python's
`int(s, 16)` accepts and strips the 0x/0X prefix itself, so the parser
runs on the remainder. -/
def str2intChars (cs : List Char) : Except String Value :=
  if strLower cs = falseChars then Except.ok (Value.int 0)
  else if strLower cs = trueChars then Except.ok (Value.int 1)
  else if begins ['0', 'x'] cs || begins ['0', 'X'] cs then
    (parseDigits 16 (cs.drop 2)).map (fun n => Value.int (Int.ofNat n))
  else if begins ['0'] cs && isnumeric cs then
    (parseDigits 8 cs).map (fun n => Value.int (Int.ofNat n))
  else if begins ['b'] cs && isnumeric (cs.drop 1) then
    (parseDigits 2 (cs.drop 1)).map (fun n => Value.int (Int.ofNat n))
  else if isnumeric cs then
    (parseDigits 10 cs).map (fun n => Value.int (Int.ofNat n))
  else Except.ok (Value.str (String.mk cs))

/-- Embedding of utils.str2int (lines 66-82): non-string input is returned
unchanged (line 67-68); strings go through the base-sniffing cascade. -/
def str2int (v : Value) : Except String Value :=
  match v with
  | Value.str s => str2intChars s.data
  | x => Except.ok x

/-- Embedding of utils.str2bool (lines 86-91). -/
def str2bool (v : Value) : Except String Value :=
  if isNoneV v || pyEq v (Value.str "") then Except.ok (Value.bool false)
  else if isBoolConst v then Except.ok v
  else (str2int v).map (fun w => Value.bool (!pyEq w (Value.int 0)))

/-! ### zigpy value constructors

attr_encode builds zigpy typed values (t.uint8_t, t.int32s, t.LVBytes,
t.Bool, f.TypeValue).  These constructors are modelled here from the
zigpy dependency's documented behavior: integer types are range-checked
at construction (out-of-range raises ValueError), LVBytes follows Python
`bytes(x)` semantics, and a missing registry key raises KeyError. -/

/-- Payload of a constructed zigpy typed value. -/
inductive TVal where
  | boolv : Bool → TVal
  | uintv : Nat → Nat → TVal
  | intv : Nat → Int → TVal
  | lvbytes : List Nat → TVal
  | generic : Int → TVal

/-- f.TypeValue: the datatype code (possibly None) paired with a payload. -/
structure TypeValue where
  type : Option Nat
  value : TVal

/-- The triple returned by attr_encode: (attr_obj, msg, compare_val). -/
def EncodeResult := Option TypeValue × Option String × Value

/-- Python `int(x)` coercion as used by the zigpy integer constructors:
ints pass through, bools become 0/1, strings are parsed as (optionally
signed) decimal; anything else raises. -/
def pyStrToInt (cs : List Char) : Except String Int :=
  match cs with
  | '-' :: rest => (parseDigits 10 rest).map (fun n => -(Int.ofNat n))
  | '+' :: rest => (parseDigits 10 rest).map Int.ofNat
  | _ => (parseDigits 10 cs).map Int.ofNat

def pyToInt (v : Value) : Except String Int :=
  match v with
  | Value.int n => Except.ok n
  | Value.bool b => Except.ok (if b then 1 else 0)
  | Value.str s => pyStrToInt s.data
  | _ => Except.error "TypeError: int argument must be a number or string"

/-- Does an integer fit the declared bit width and signedness? -/
def intInRange (sg : Bool) (bits : Nat) (n : Int) : Bool :=
  if sg then decide (-(2 ^ (bits - 1)) ≤ n ∧ n < 2 ^ (bits - 1))
  else decide (0 ≤ n ∧ n < 2 ^ bits)

/-- Range-error message raised by a zigpy fixed-width integer constructor. -/
def rangeErrMsg (sg : Bool) (bits : Nat) : String :=
  "ValueError: value does not fit in " ++ toString bits ++ "-bit "
    ++ (if sg then "signed" else "unsigned") ++ " integer"

/-- zigpy t.uintN_t / t.intNs construction: coerce to int, then
range-check against the declared width; out of range raises ValueError
(the value is never truncated). -/
def mkIntTV (sg : Bool) (bits : Nat) (v : Value) : Except String TVal :=
  match pyToInt v with
  | Except.error e => Except.error e
  | Except.ok n =>
    if intInRange sg bits n then
      Except.ok (if sg then TVal.intv bits n else TVal.uintv bits n.toNat)
    else Except.error (rangeErrMsg sg bits)

/-- zigpy t.Bool (an enum8 with the two members 0 and 1). -/
def mkBoolV (v : Value) : Except String TVal :=
  match pyToInt v with
  | Except.error e => Except.error e
  | Except.ok n =>
    if n = 0 then Except.ok (TVal.boolv false)
    else if n = 1 then Except.ok (TVal.boolv true)
    else Except.error "ValueError: not a Bool member"

/-- A list element coerced to one byte by t.uint8_t / bytes(...) element
conversion. -/
def toU8 (x : Value) : Except String Nat :=
  match pyToInt x with
  | Except.error e => Except.error e
  | Except.ok n =>
    if 0 ≤ n ∧ n < 256 then Except.ok n.toNat
    else Except.error "ValueError: byte value out of range"

/-- zigpy t.LVBytes construction, following Python `bytes(x)`: bytes pass
through, a list of small ints becomes those bytes, an int n gives n zero
bytes, and a str (no encoding given) raises TypeError. -/
def mkLVBytes (v : Value) : Except String (List Nat) :=
  match v with
  | Value.bytes bs => Except.ok bs
  | Value.list xs => xs.mapM toU8
  | Value.int n =>
    if 0 ≤ n then Except.ok (List.replicate n.toNat 0)
    else Except.error "ValueError: negative count"
  | Value.bool b => Except.ok (List.replicate (if b then 1 else 0) 0)
  | Value.str _ => Except.error "TypeError: string argument without an encoding"
  | Value.none => Except.error "TypeError: cannot convert NoneType to bytes"

/-- UTF-8 bytes of a string (Python `bytes(s, "utf-8")`). -/
def utf8Bytes (s : String) : List Nat := s.toUTF8.toList.map UInt8.toNat

/-! ### attr_encode (utils.py lines 378-475)

The source is one if/elif cascade on attr_type; msg is computed at lines
466-474: since every non-raising branch assigns attr_obj, the
`attr_obj is None` error branch there is dead code and the ok-results
always carry msg = None. -/

/-- The integer branches of attr_encode (lines 386-433): compare_val is
str2int of the input, the typed object is the range-checked fixed-width
integer. -/
def encodeIntBranch (attr_val_in : Value) (attr_type : Option Nat)
    (sg : Bool) (bits : Nat) : Except String EncodeResult :=
  match str2int attr_val_in with
  | Except.error e => Except.error e
  | Except.ok compare_val =>
    match mkIntTV sg bits compare_val with
    | Except.error e => Except.error e
    | Except.ok tv =>
      Except.ok (Option.some ⟨attr_type, tv⟩, Option.none, compare_val)

/-- The Bool branch of attr_encode (lines 383-385). -/
def encodeBoolBranch (attr_val_in : Value) (attr_type : Option Nat) :
    Except String EncodeResult :=
  match str2int attr_val_in with
  | Except.error e => Except.error e
  | Except.ok compare_val =>
    match mkBoolV compare_val with
    | Except.error e => Except.error e
    | Except.ok tv =>
      Except.ok (Option.some ⟨attr_type, tv⟩, Option.none, compare_val)

/-- The octet-string branch of attr_encode for codes 0x41/0x42 (lines
434-447).  Line 436 first builds `compare_val = t.LVBytes(attr_val_in)`
from the raw input; only afterwards (lines 438-439) would a textual input
be converted to UTF-8 bytes, so for a str input the construction at line
436 raises TypeError before that conversion is reached. -/
def encodeOctetBranch (attr_val_in : Value) (attr_type : Option Nat) :
    Except String EncodeResult :=
  match mkLVBytes attr_val_in with
  | Except.error e => Except.error e
  | Except.ok cv =>
    let v1 := match attr_val_in with
      | Value.str s => Value.bytes (utf8Bytes s)
      | x => x
    match v1 with
    | Value.list xs =>
      match xs.mapM toU8 with
      | Except.error e => Except.error e
      | Except.ok u8s =>
        Except.ok (Option.some ⟨attr_type, TVal.lvbytes u8s⟩, Option.none,
          Value.bytes cv)
    | w =>
      match mkLVBytes w with
      | Except.error e => Except.error e
      | Except.ok bs =>
        Except.ok (Option.some ⟨attr_type, TVal.lvbytes bs⟩, Option.none,
          Value.bytes cv)

/-- The 0xFF / None fallback branch of attr_encode (lines 448-451). -/
def encodeFallbackBranch (attr_val_in : Value) (attr_type : Option Nat) :
    Except String EncodeResult :=
  match str2int attr_val_in with
  | Except.error e => Except.error e
  | Except.ok compare_val =>
    match mkLVBytes compare_val with
    | Except.error e => Except.error e
    | Except.ok bs =>
      Except.ok (Option.some ⟨attr_type, TVal.lvbytes bs⟩, Option.none,
        compare_val)

/-- The keys of zigpy's f.DATA_TYPES registry (zigpy.zcl.foundation), as
consulted by the final else branch at line 454.  0x7E is not among them. -/
def dataTypeKeys : List Nat :=
  [0x00, 0x08, 0x09, 0x0A, 0x0B, 0x0C, 0x0D, 0x0E, 0x0F, 0x10,
   0x18, 0x19, 0x1A, 0x1B, 0x1C, 0x1D, 0x1E, 0x1F,
   0x20, 0x21, 0x22, 0x23, 0x24, 0x25, 0x26, 0x27,
   0x28, 0x29, 0x2A, 0x2B, 0x2C, 0x2D, 0x2E, 0x2F,
   0x30, 0x31, 0x38, 0x39, 0x3A, 0x41, 0x42, 0x43, 0x44,
   0x48, 0x4C, 0x50, 0x51, 0xE0, 0xE1, 0xE2, 0xE8, 0xE9, 0xEA,
   0xF0, 0xF1, 0xFF]

/-- KeyError raised by `f.DATA_TYPES[attr_type]` for an unmapped code. -/
def keyErrorMsg (c : Nat) : String := "KeyError: " ++ toString c

/-- The final else branch of attr_encode (lines 452-464): look the code up
in f.DATA_TYPES — a missing key raises KeyError before compare_val is even
computed.  For mapped codes the generic constructor is modelled coarsely as
an integer coercion (no claim exercises a mapped code on this path). -/
def encodeTableBranch (attr_val_in : Value) (c : Nat) :
    Except String EncodeResult :=
  if c ∈ dataTypeKeys then
    match str2int attr_val_in with
    | Except.error e => Except.error e
    | Except.ok sv =>
      match pyToInt sv with
      | Except.error e => Except.error e
      | Except.ok n =>
        Except.ok (Option.some ⟨Option.some c, TVal.generic n⟩, Option.none,
          Value.int n)
  else Except.error (keyErrorMsg c)

/-- Embedding of utils.attr_encode (lines 378-475): dispatch on the
attr_type code exactly as the source's if/elif cascade does. -/
def attr_encode (attr_val_in : Value) (attr_type : Option Nat) :
    Except String EncodeResult :=
  match attr_type with
  | Option.some 0x10 => encodeBoolBranch attr_val_in attr_type
  | Option.some 0x20 => encodeIntBranch attr_val_in attr_type false 8
  | Option.some 0x21 => encodeIntBranch attr_val_in attr_type false 16
  | Option.some 0x22 => encodeIntBranch attr_val_in attr_type false 24
  | Option.some 0x23 => encodeIntBranch attr_val_in attr_type false 32
  | Option.some 0x24 => encodeIntBranch attr_val_in attr_type false 32
  | Option.some 0x25 => encodeIntBranch attr_val_in attr_type false 48
  | Option.some 0x26 => encodeIntBranch attr_val_in attr_type false 56
  | Option.some 0x27 => encodeIntBranch attr_val_in attr_type false 64
  | Option.some 0x28 => encodeIntBranch attr_val_in attr_type true 8
  | Option.some 0x29 => encodeIntBranch attr_val_in attr_type true 16
  | Option.some 0x2A => encodeIntBranch attr_val_in attr_type true 24
  | Option.some 0x2B => encodeIntBranch attr_val_in attr_type true 32
  | Option.some 0x2C => encodeIntBranch attr_val_in attr_type true 32
  | Option.some 0x2D => encodeIntBranch attr_val_in attr_type true 48
  | Option.some 0x2E => encodeIntBranch attr_val_in attr_type true 56
  | Option.some 0x2F => encodeIntBranch attr_val_in attr_type true 64
  | Option.some 0x41 => encodeOctetBranch attr_val_in attr_type
  | Option.some 0x42 => encodeOctetBranch attr_val_in attr_type
  | Option.some 0xFF => encodeFallbackBranch attr_val_in attr_type
  | Option.none => encodeFallbackBranch attr_val_in Option.none
  | Option.some c => encodeTableBranch attr_val_in c

/-- The (code, signed?, bits) rows of the integer branches of attr_encode
(0x24 aliasing 32-bit unsigned, 0x2C aliasing 32-bit signed, exactly as in
the source). -/
def intTypeTable : List (Nat × Bool × Nat) :=
  [(0x20, false, 8), (0x21, false, 16), (0x22, false, 24), (0x23, false, 32),
   (0x24, false, 32), (0x25, false, 48), (0x26, false, 56), (0x27, false, 64),
   (0x28, true, 8), (0x29, true, 16), (0x2A, true, 24), (0x2B, true, 32),
   (0x2C, true, 32), (0x2D, true, 48), (0x2E, true, 56), (0x2F, true, 64)]

/-! ### Device model and the endpoint/cluster resolvers

A device's endpoint table is an insertion-ordered association list from
endpoint id to its input/output cluster-id sets (read-only to this core).
Python dict membership `k in d` with the dynamically typed key uses `==`
on the keys, modelled via pyEq; looking a list up as a dict key would
raise TypeError in Python, which is modelled as not-found here since no
claim exercises it. -/

structure Endpoint where
  in_clusters : List Nat
  out_clusters : List Nat

structure Device where
  endpoints : List (Nat × Endpoint)

/-- `cluster_id in <cluster dict>` (key membership by Python ==). -/
def memKeys (v : Value) (cl : List Nat) : Bool :=
  cl.any (fun n => pyEq v (Value.int n))

/-- `<cluster dict>[cluster_id]`: the stored key matching the lookup value. -/
def clusterLookup (v : Value) (cl : List Nat) : Option Nat :=
  cl.find? (fun n => pyEq v (Value.int n))

/-- `dev.endpoints[key]` lookup / `key in dev.endpoints` membership. -/
def epLookup (v : Value) (eps : List (Nat × Endpoint)) : Option (Nat × Endpoint) :=
  eps.find? (fun kv => pyEq v (Value.int kv.1))

/-- One iteration of the counting loop of find_endpoint (lines 234-239):
skip endpoint 0, and when the target cluster is among the endpoint's
input clusters, remember the key and bump the count. -/
def passStep (cluster_id : Value) (st : Nat × Option Nat) (kv : Nat × Endpoint) :
    Nat × Option Nat :=
  if kv.1 = 0 then st
  else if memKeys cluster_id kv.2.in_clusters then (st.1 + 1, Option.some kv.1)
  else st

/-- Embedding of utils.find_endpoint (lines 230-267).  The first pass
counts input-cluster matches.  When it found nothing, the source runs a
second loop (lines 242-247) whose membership test at line 245 reads
`cluster_id in value.in_clusters` — the input clusters again, not the
output clusters — so the second pass repeats the first one.  After the
loops: more than one match yields None (line 257-258), exactly one match
yields the remembered endpoint, zero matches leave endpoint_id = None. -/
def find_endpoint (dev : Device) (cluster_id : Value) : Option Nat :=
  let s1 := dev.endpoints.foldl (passStep cluster_id) (0, Option.none)
  let s2 := if s1.1 = 0 then dev.endpoints.foldl (passStep cluster_id) s1 else s1
  if s2.1 > 1 then Option.none else s2.2

/-- Second-pass step as the spec words it (§4.3 step 4): count
**output**-cluster membership. -/
def passStepOut (cluster_id : Value) (st : Nat × Option Nat) (kv : Nat × Endpoint) :
    Nat × Option Nat :=
  if kv.1 = 0 then st
  else if memKeys cluster_id kv.2.out_clusters then (st.1 + 1, Option.some kv.1)
  else st

/-- Modelled from the spec (§4.3): the endpoint resolver whose second
pass re-scans counting output-cluster membership, written to compare the
spec's intended behavior against find_endpoint as implemented. -/
def find_endpoint_spec (dev : Device) (cluster_id : Value) : Option Nat :=
  let s1 := dev.endpoints.foldl (passStep cluster_id) (0, Option.none)
  let s2 := if s1.1 = 0 then dev.endpoints.foldl (passStepOut cluster_id) s1 else s1
  if s2.1 > 1 then Option.none else s2.2

/-! ### The canonical parameter set (utils.extractParams)

The field-name constants INTERNAL_PARAMS / USER_PARAMS come from
params.py, which is not part of the sources here; they are modelled from
the spec as two enumerations of distinct abstract keys (the spec's §3
ParameterSet field list), `PKey` for the canonical fields and `RKey` for
the raw service-data fields. -/

inductive PKey where
  | cmd_id | ep_id | cluster_id | attr_id | attr_type | attr_val | code
  | min_interval | max_interval | reportable_change | dir | manf | tries
  | expect_reply | args | state_id | state_attr | allow_create
  | evt_success | evt_fail | evt_done | fail_exception
  | read_before_write | read_after_write | write_if_equal
  | csv_file | csv_label
  deriving DecidableEq

inductive RKey where
  | endpoint | cluster | attr | attr_type | attr_val | code | cmd | dir
  | manf | tries | expect_reply | fail_exception | args
  | min_intrvl | max_intrvl | reptble_chg | state_id | state_attr
  | read_before_write | read_after_write | write_if_equal | allow_create
  | event_done | event_fail | event_success | outcsv | csvlabel
  deriving DecidableEq

/-- The canonical parameter set: a total map from field to Value (absent
fields hold Value.none or their declared default). -/
def Params := PKey → Value

/-- The raw service-data mapping: present fields carry a Value. -/
def Raw := RKey → Option Value

/-- Store one field of the parameter set. -/
def setP (ps : Params) (pk : PKey) (v : Value) : Params :=
  fun k => if k = pk then v else ps k

/-- The initial parameter dict of extractParams (lines 492-520). -/
def defaultParams : Params
  | PKey.dir => Value.int 0
  | PKey.tries => Value.int 1
  | PKey.expect_reply => Value.bool true
  | PKey.args => Value.list []
  | PKey.allow_create => Value.bool false
  | PKey.fail_exception => Value.bool false
  | PKey.read_before_write => Value.bool true
  | PKey.read_after_write => Value.bool true
  | PKey.write_if_equal => Value.bool false
  | _ => Value.none

/-- One command argument (lines 575-584): scalar-parse it, and turn a
list result into a byte-array container of t.uint8_t values. -/
def argElem (v : Value) : Except String Value :=
  match str2int v with
  | Except.error e => Except.error e
  | Except.ok lval =>
    match lval with
    | Value.list xs => (xs.mapM toU8).map Value.bytes
    | x => Except.ok x

/-- The ARGS conversion (lines 573-585): iterate the raw value (a list,
or Python iteration of a str as characters / bytes as ints) converting
each element. -/
def argsConvert (v : Value) : Except String Value :=
  match v with
  | Value.list xs => (xs.mapM argElem).map Value.list
  | Value.str s =>
    ((s.data.map (fun c => Value.str (String.mk [c]))).mapM argElem).map Value.list
  | Value.bytes bs =>
    ((bs.map (fun n => Value.int (Int.ofNat n))).mapM argElem).map Value.list
  | _ => Except.error "TypeError: object is not iterable"

/-- Per-field conversion kinds used by extractParams. -/
inductive Conv where
  | scalar      -- str2int(raw)                      (e.g. lines 524, 552, 564)
  | inverted    -- str2int(raw) == 0                 (lines 568, 571)
  | toBool      -- str2bool(raw)                     (lines 601-607)
  | passthru    -- raw stored unchanged              (e.g. lines 595, 619)
  | argsConv    -- element-wise argument conversion  (lines 573-585)
  | allowConv   -- allow_create conversion           (lines 612-616)

def applyConv : Conv → Value → Except String Value
  | Conv.scalar, v => str2int v
  | Conv.inverted, v => (str2int v).map (fun w => Value.bool (pyEq w (Value.int 0)))
  | Conv.toBool, v => str2bool v
  | Conv.passthru, v => Except.ok v
  | Conv.argsConv, v => argsConvert v
  | Conv.allowConv, v =>
    (str2int v).map (fun a =>
      Value.bool (!isNoneV a && (isTrueConst a || pyEq a (Value.int 1))))

/-- One `if <field> in rawParams: params[...] = conv(rawParams[...])`
block of extractParams. -/
def stepC (raw : Raw) (rk : RKey) (pk : PKey) (cv : Conv) (ps : Params) :
    Except String Params :=
  match raw rk with
  | Option.none => Except.ok ps
  | Option.some v =>
    match applyConv cv v with
    | Except.error e => Except.error e
    | Except.ok w => Except.ok (setP ps pk w)

/-- The manufacturer fix-up (lines 558-560): an empty-string or 0 manf
becomes the explicit empty byte string. -/
def manfFix (ps : Params) : Params :=
  if pyEq (ps PKey.manf) (Value.str "") || pyEq (ps PKey.manf) (Value.int 0) then
    setP ps PKey.manf (Value.bytes [])
  else ps

/-- Embedding of utils.extractParams (lines 483-633): the default table,
then one conversion block per recognized raw field, in source order
(including the duplicated state_attr block at lines 609-610). -/
def extractParams (raw : Raw) : Except String Params :=
  (stepC raw RKey.endpoint PKey.ep_id Conv.scalar defaultParams).bind fun ps1 =>
  (stepC raw RKey.cluster PKey.cluster_id Conv.scalar ps1).bind fun ps2 =>
  (stepC raw RKey.attr PKey.attr_id Conv.scalar ps2).bind fun ps3 =>
  (stepC raw RKey.attr_type PKey.attr_type Conv.scalar ps3).bind fun ps4 =>
  (stepC raw RKey.attr_val PKey.attr_val Conv.scalar ps4).bind fun ps5 =>
  (stepC raw RKey.code PKey.code Conv.scalar ps5).bind fun ps6 =>
  (stepC raw RKey.cmd PKey.cmd_id Conv.scalar ps6).bind fun ps7 =>
  (stepC raw RKey.dir PKey.dir Conv.scalar ps7).bind fun ps8 =>
  (stepC raw RKey.manf PKey.manf Conv.scalar ps8).bind fun ps9 =>
  (stepC raw RKey.tries PKey.tries Conv.scalar (manfFix ps9)).bind fun ps10 =>
  (stepC raw RKey.expect_reply PKey.expect_reply Conv.inverted ps10).bind fun ps11 =>
  (stepC raw RKey.fail_exception PKey.fail_exception Conv.inverted ps11).bind fun ps12 =>
  (stepC raw RKey.args PKey.args Conv.argsConv ps12).bind fun ps13 =>
  (stepC raw RKey.min_intrvl PKey.min_interval Conv.scalar ps13).bind fun ps14 =>
  (stepC raw RKey.max_intrvl PKey.max_interval Conv.scalar ps14).bind fun ps15 =>
  (stepC raw RKey.reptble_chg PKey.reportable_change Conv.scalar ps15).bind fun ps16 =>
  (stepC raw RKey.state_id PKey.state_id Conv.passthru ps16).bind fun ps17 =>
  (stepC raw RKey.state_attr PKey.state_attr Conv.passthru ps17).bind fun ps18 =>
  (stepC raw RKey.read_before_write PKey.read_before_write Conv.toBool ps18).bind fun ps19 =>
  (stepC raw RKey.read_after_write PKey.read_after_write Conv.toBool ps19).bind fun ps20 =>
  (stepC raw RKey.write_if_equal PKey.write_if_equal Conv.toBool ps20).bind fun ps21 =>
  (stepC raw RKey.state_attr PKey.state_attr Conv.passthru ps21).bind fun ps22 =>
  (stepC raw RKey.allow_create PKey.allow_create Conv.allowConv ps22).bind fun ps23 =>
  (stepC raw RKey.event_done PKey.evt_done Conv.passthru ps23).bind fun ps24 =>
  (stepC raw RKey.event_fail PKey.evt_fail Conv.passthru ps24).bind fun ps25 =>
  (stepC raw RKey.event_success PKey.evt_success Conv.passthru ps25).bind fun ps26 =>
  (stepC raw RKey.outcsv PKey.csv_file Conv.passthru ps26).bind fun ps27 =>
  stepC raw RKey.csvlabel PKey.csv_label Conv.passthru ps27

/-! ### get_cluster_from_params (utils.py lines 270-310) -/

/-- The cluster object returned by the resolver: which endpoint, which
cluster id, and whether it came from the input-cluster set. -/
structure ClusterRef where
  ep : Nat
  cid : Nat
  from_in : Bool

/-- The event_data dict as touched by the resolver: only its "warnings"
entry is ever accessed (lines 300-302). -/
structure EventData where
  warnings : Option (List String)

/-- find_endpoint's result stored back into params (line 280). -/
def optToVal : Option Nat → Value
  | Option.some n => Value.int n
  | Option.none => Value.none

/-- Message raised at line 297: the source reads `dev.enddev.points[...]`,
but the device object has no attribute `enddev` (the same branch spells
`dev.endpoints` correctly at line 303), so Python raises AttributeError
there, before the out_clusters membership test, the warning append
(lines 298-302), and the out-cluster return (line 303) can run. -/
def attributeErrorMsg : String :=
  "AttributeError: Device object has no attribute enddev"

/-- Result component of get_cluster_from_params after the endpoint id has
been filled in: endpoint presence check (line 282), numeric cluster check
(line 288), then the input-cluster lookup (line 293); the would-be
out-cluster fallback raises AttributeError as described above. -/
def gcfpCore (dev : Device) (params : Params) : Except String ClusterRef :=
  match epLookup (params PKey.ep_id) dev.endpoints with
  | Option.none => Except.error "Exception: Endpoint not found for device"
  | Option.some kv =>
    if !isIntLike (params PKey.cluster_id) then
      Except.error "Exception: Cluster must be numeric"
    else
      match clusterLookup (params PKey.cluster_id) kv.2.in_clusters with
      | Option.some cid => Except.ok ⟨kv.1, cid, true⟩
      | Option.none => Except.error attributeErrorMsg

/-- Embedding of utils.get_cluster_from_params (lines 270-310).  The only
mutation of params happens first (lines 279-280): an absent endpoint id
(None or "") is replaced by find_endpoint's result.  The mutated params
and the event_data are returned alongside the Except result, mirroring
Python's in-place mutation even on the raising paths; event_data is
returned unchanged because the only write to it (lines 300-302) sits in
the branch made unreachable by the line-297 AttributeError. -/
def get_cluster_from_params (dev : Device) (params0 : Params) (ed : EventData) :
    Except String ClusterRef × Params × EventData :=
  let params :=
    if isNoneV (params0 PKey.ep_id) || pyEq (params0 PKey.ep_id) (Value.str "") then
      setP params0 PKey.ep_id (optToVal (find_endpoint dev (params0 PKey.cluster_id)))
    else params0
  (gcfpCore dev params, params, ed)

/-! ### Lemmas about the scalar codec -/

lemma bool_ne_true {b : Bool} (h : b = false) : ¬(b = true) := by simp [h]

lemma digit_lower {c : Char} (h : isAsciiDigit c = true) : asciiLower c = c := by
  have h' := of_decide_eq_true h
  unfold asciiLower
  rw [if_neg (by omega)]

lemma digit_ne_char {c d : Char} (h : isAsciiDigit c = true)
    (hd : isAsciiDigit d = false) : c ≠ d := by
  intro he
  subst he
  simp [h] at hd

lemma lower_head_ne {c0 t0 : Char} {r tr : List Char} (h : asciiLower c0 ≠ t0) :
    strLower (c0 :: r) ≠ t0 :: tr := by
  intro he
  unfold strLower at he
  rw [List.map_cons] at he
  injection he with h1 _
  exact h h1

lemma lower_ne_false {c0 : Char} {r : List Char} (h : asciiLower c0 ≠ 'f') :
    strLower (c0 :: r) ≠ falseChars := lower_head_ne h

lemma lower_ne_true {c0 : Char} {r : List Char} (h : asciiLower c0 ≠ 't') :
    strLower (c0 :: r) ≠ trueChars := lower_head_ne h

lemma begins_head_false {p0 c0 : Char} {pr r : List Char} (h : (p0 == c0) = false) :
    begins (p0 :: pr) (c0 :: r) = false := by
  simp [begins, h]

lemma base_digit_ascii {base : Nat} {c : Char} (hb : base ≤ 10)
    (h : isBaseDigit base c = true) : isAsciiDigit c = true := by
  have h' := of_decide_eq_true h
  unfold digitVal at h'
  unfold isAsciiDigit
  split at h'
  · exact decide_eq_true ‹48 ≤ c.toNat ∧ c.toNat ≤ 57›
  · split at h'
    · exfalso; omega
    · split at h'
      · exfalso; omega
      · exfalso; omega

lemma ascii_digit_base10 {c : Char} (h : isAsciiDigit c = true) :
    isBaseDigit 10 c = true := by
  have h' := of_decide_eq_true h
  unfold isBaseDigit digitVal
  rw [if_pos h']
  exact decide_eq_true (by omega)

lemma parseAux_ok {base : Nat} : ∀ (cs : List Char) (acc : Nat),
    (∀ c ∈ cs, isBaseDigit base c = true) →
    parseDigitsAux base cs acc =
      Except.ok (cs.foldl (fun a c => a * base + digitVal c) acc) := by
  intro cs
  induction cs with
  | nil => intro acc _; rfl
  | cons c rest ih =>
    intro acc h
    have hc : isBaseDigit base c = true := h c (List.mem_cons_self c rest)
    unfold parseDigitsAux
    rw [if_pos hc, List.foldl_cons]
    exact ih _ (fun d hd => h d (List.mem_cons_of_mem c hd))

lemma parseDigits_ok {base : Nat} {cs : List Char} (hne : cs ≠ [])
    (hd : ∀ c ∈ cs, isBaseDigit base c = true) :
    parseDigits base cs = Except.ok (digitsVal base cs) := by
  cases cs with
  | nil => exact absurd rfl hne
  | cons c r => exact parseAux_ok (c :: r) 0 hd

/-- A digit 8 or 9 anywhere in the input makes the base-8 parse raise,
no matter what precedes it. -/
lemma parse8_err : ∀ (cs : List Char) (acc : Nat), ('8' ∈ cs ∨ '9' ∈ cs) →
    parseDigitsAux 8 cs acc = Except.error parseErrMsg := by
  intro cs
  induction cs with
  | nil => intro acc h; rcases h with h | h <;> simp at h
  | cons c rest ih =>
    intro acc h
    unfold parseDigitsAux
    by_cases hc : isBaseDigit 8 c = true
    · rw [if_pos hc]
      apply ih
      rcases h with h | h
      · rcases List.mem_cons.mp h with he | hm
        · rw [← he] at hc; exact absurd hc (by decide)
        · exact Or.inl hm
      · rcases List.mem_cons.mp h with he | hm
        · rw [← he] at hc; exact absurd hc (by decide)
        · exact Or.inr hm
    · rw [if_neg hc]

/-- Core of the 0x/0X hexadecimal branch of str2int. -/
lemma s2i_hex_core (cs : List Char)
    (hcond : (begins ['0', 'x'] cs || begins ['0', 'X'] cs) = true)
    (hne : cs.drop 2 ≠ []) (hd : ∀ c ∈ cs.drop 2, isBaseDigit 16 c = true)
    (hf : strLower cs ≠ falseChars) (ht : strLower cs ≠ trueChars) :
    str2intChars cs = Except.ok (Value.int (Int.ofNat (digitsVal 16 (cs.drop 2)))) := by
  unfold str2intChars
  rw [if_neg hf, if_neg ht, if_pos hcond, parseDigits_ok hne hd]
  rfl

/-- The leading-zero octal branch of str2int, for octal-valid digits. -/
lemma s2i_octal (ds : List Char) (hd : ∀ c ∈ ds, isBaseDigit 8 c = true) :
    str2intChars ('0' :: ds) =
      Except.ok (Value.int (Int.ofNat (digitsVal 8 ('0' :: ds)))) := by
  have hdig : ∀ c ∈ ds, isAsciiDigit c = true :=
    fun c hc => base_digit_ascii (by omega) (hd c hc)
  unfold str2intChars
  rw [if_neg (lower_ne_false (by decide)), if_neg (lower_ne_true (by decide))]
  rw [if_neg ?hx0, if_pos ?ho0, parseDigits_ok (by simp) ?hall]
  case hx0 =>
    cases ds with
    | nil => decide
    | cons c1 r' =>
      have hc1 : isAsciiDigit c1 = true := hdig c1 (List.mem_cons_self c1 r')
      have hx1 : ('x' == c1) = false :=
        beq_eq_false_iff_ne.mpr (Ne.symm (digit_ne_char hc1 (by decide)))
      have hX1 : ('X' == c1) = false :=
        beq_eq_false_iff_ne.mpr (Ne.symm (digit_ne_char hc1 (by decide)))
      simp [begins, hx1, hX1]
  case ho0 =>
    rw [Bool.and_eq_true]
    refine ⟨by simp [begins], ?_⟩
    rw [isnumeric, Bool.and_eq_true]
    refine ⟨rfl, ?_⟩
    rw [List.all_eq_true]
    intro c hc
    rcases List.mem_cons.mp hc with he | hm
    · rw [he]; decide
    · exact hdig c hm
  case hall =>
    intro c hc
    rcases List.mem_cons.mp hc with he | hm
    · rw [he]; decide
    · exact hd c hm
  rfl

/-- The b-prefixed binary branch of str2int, for binary-valid digits. -/
lemma s2i_binary (ds : List Char) (hne : ds ≠ [])
    (hd : ∀ c ∈ ds, isBaseDigit 2 c = true) :
    str2intChars ('b' :: ds) =
      Except.ok (Value.int (Int.ofNat (digitsVal 2 ds))) := by
  have hdig : ∀ c ∈ ds, isAsciiDigit c = true :=
    fun c hc => base_digit_ascii (by omega) (hd c hc)
  cases ds with
  | nil => exact absurd rfl hne
  | cons d dr =>
    unfold str2intChars
    rw [if_neg (lower_ne_false (by decide)), if_neg (lower_ne_true (by decide))]
    have hb0 : (('0' : Char) == 'b') = false := by decide
    rw [if_neg ?hxb, if_neg ?hob, if_pos ?hbb]
    case hxb =>
      rw [begins_head_false hb0, begins_head_false hb0]
      decide
    case hob =>
      rw [begins_head_false hb0]
      simp
    case hbb =>
      rw [Bool.and_eq_true]
      refine ⟨by simp [begins], ?_⟩
      rw [List.drop_succ_cons, List.drop_zero, isnumeric, Bool.and_eq_true]
      refine ⟨rfl, ?_⟩
      rw [List.all_eq_true]
      exact hdig
    rw [List.drop_succ_cons, List.drop_zero, parseDigits_ok (by simp) hd]
    rfl

/-- The plain decimal branch of str2int: an all-digit token with no
leading zero. -/
lemma s2i_decimal (cs : List Char) (hne : cs ≠ [])
    (hd : ∀ c ∈ cs, isAsciiDigit c = true) (h0 : cs.head? ≠ some '0') :
    str2intChars cs = Except.ok (Value.int (Int.ofNat (digitsVal 10 cs))) := by
  cases cs with
  | nil => exact absurd rfl hne
  | cons c0 r =>
    have hc0 : isAsciiDigit c0 = true := hd c0 (List.mem_cons_self c0 r)
    have h0' : c0 ≠ '0' := fun he => h0 (by rw [he]; rfl)
    have hbeq : (('0' : Char) == c0) = false := beq_eq_false_iff_ne.mpr (Ne.symm h0')
    have hbbeq : (('b' : Char) == c0) = false :=
      beq_eq_false_iff_ne.mpr (Ne.symm (digit_ne_char hc0 (by decide)))
    unfold str2intChars
    rw [if_neg (lower_ne_false (by rw [digit_lower hc0]; exact digit_ne_char hc0 (by decide)))]
    rw [if_neg (lower_ne_true (by rw [digit_lower hc0]; exact digit_ne_char hc0 (by decide)))]
    rw [if_neg ?hxd, if_neg ?hod, if_neg ?hbd, if_pos ?hnd]
    case hxd =>
      rw [begins_head_false hbeq, begins_head_false hbeq]
      decide
    case hod =>
      rw [begins_head_false hbeq]
      simp
    case hbd =>
      rw [begins_head_false hbbeq]
      simp
    case hnd =>
      rw [isnumeric, Bool.and_eq_true]
      refine ⟨rfl, ?_⟩
      rw [List.all_eq_true]
      exact hd
    rw [parseDigits_ok (by simp) (fun c hc => ascii_digit_base10 (hd c hc))]
    rfl

/-! ### Lemmas about setP, stepC and the encoder branches -/

lemma setP_same {ps : Params} {pk : PKey} {v : Value} : setP ps pk v pk = v := by
  simp [setP]

lemma setP_other {ps : Params} {pk : PKey} {v : Value} {k : PKey} (hk : k ≠ pk) :
    setP ps pk v k = ps k := by
  simp [setP, hk]

lemma bindOk {α β : Type} {x : Except String α} {f : α → Except String β} {b : β} :
    x.bind f = Except.ok b ↔ ∃ a, x = Except.ok a ∧ f a = Except.ok b := by
  cases x with
  | error e => simp [Except.bind]
  | ok a => simp [Except.bind]

lemma stepC_hit {raw : Raw} {rk : RKey} {pk : PKey} {cv : Conv}
    {ps ps' : Params} {v w : Value} (h : stepC raw rk pk cv ps = Except.ok ps')
    (hv : raw rk = Option.some v) (hw : applyConv cv v = Except.ok w) :
    ps' = setP ps pk w := by
  simp only [stepC, hv, hw] at h
  exact (Except.ok.inj h).symm

lemma stepC_miss {raw : Raw} {rk : RKey} {pk : PKey} {cv : Conv}
    {ps ps' : Params} (h : stepC raw rk pk cv ps = Except.ok ps')
    (hv : raw rk = Option.none) : ps' = ps := by
  simp only [stepC, hv] at h
  exact (Except.ok.inj h).symm

lemma stepC_frame {raw : Raw} {rk : RKey} {pk : PKey} {cv : Conv}
    {ps ps' : Params} (h : stepC raw rk pk cv ps = Except.ok ps')
    (k : PKey) (hk : k ≠ pk) : ps' k = ps k := by
  cases hv : raw rk with
  | none => rw [stepC_miss h hv]
  | some v =>
    cases hw : applyConv cv v with
    | error e =>
      simp only [stepC, hv, hw] at h
      exact Except.noConfusion h
    | ok w =>
      rw [stepC_hit h hv hw]
      exact setP_other hk

lemma manfFix_frame (ps : Params) {k : PKey} (hk : k ≠ PKey.manf) :
    manfFix ps k = ps k := by
  unfold manfFix
  split
  · exact setP_other hk
  · rfl

/-- An out-of-range parsed integer makes the integer branch fail with the
range error, never a truncated value. -/
lemma encodeIntBranch_oob {v : Int} {o : Option Nat} {sg : Bool} {bits : Nat}
    (hr : intInRange sg bits v = false) :
    encodeIntBranch (Value.int v) o sg bits = Except.error (rangeErrMsg sg bits) := by
  simp only [encodeIntBranch, str2int, mkIntTV, pyToInt, hr]
  rfl

/-! ### Claim theorems -/

/-- Device exhibiting C1's scenario: no endpoint lists cluster 6 on the
input side, exactly one non-zero endpoint (endpoint 1) lists it on the
output side. -/
def c1dev : Device := ⟨[(1, ⟨[], [6]⟩)]⟩

/-- C1: the claim says that when no non-zero endpoint's input-cluster set
contains the target cluster, find_endpoint re-scans counting
output-cluster membership and returns the endpoint id when exactly one
non-zero endpoint lists the cluster on its output side.  On c1dev with
cluster 6 the code returns None, because the second loop at lines 242-247
tests in_clusters again (line 245) instead of out_clusters; the
spec-modelled resolver whose second pass scans out_clusters returns
endpoint 1 as the claim describes. -/
theorem claim_C1_second_pass :
    find_endpoint c1dev (Value.int 6) = Option.none
    ∧ find_endpoint_spec c1dev (Value.int 6) = Option.some 1 := ⟨rfl, rfl⟩

/-- Device/params of C2's scenario: endpoint 1 lacks cluster 0x0702
(1794) in its input clusters but lists it in its output clusters. -/
def c2dev : Device := ⟨[(1, ⟨[], [1794]⟩)]⟩

def c2params : Params := fun k =>
  match k with
  | PKey.ep_id => Value.int 1
  | PKey.cluster_id => Value.int 1794
  | _ => Value.none

def edEmpty : EventData := ⟨Option.none⟩

/-- C2: the claim says get_cluster_from_params returns the output-side
cluster and appends exactly one warning when the cluster id is absent
from the endpoint's input clusters but present in its output clusters.
On that exact scenario the code instead raises AttributeError (line 297
reads dev.enddev.points, and Device has no attribute enddev), and the
event_data warnings collection is left untouched. -/
theorem claim_C2_out_fallback :
    (get_cluster_from_params c2dev c2params edEmpty).1 =
      Except.error attributeErrorMsg
    ∧ (get_cluster_from_params c2dev c2params edEmpty).2.2 = edEmpty := ⟨rfl, rfl⟩

/-- C3: the claim says that for a datatype code not mapped by the
registry (such as 0x7E) attr_encode returns the three-part result with a
descriptive error message instead of raising.  The code instead raises:
`f.DATA_TYPES[attr_type]` at line 454 raises KeyError for 0x7E before any
result triple can be built (which also leaves the line-467 "not
supported" message construction unreachable). -/
theorem claim_C3_unmapped_code :
    attr_encode (Value.str "1") (Option.some 0x7E) =
      Except.error (keyErrorMsg 0x7E)
    ∧ attr_encode (Value.int 0) (Option.some 0x7E) =
      Except.error (keyErrorMsg 0x7E)
    ∧ keyErrorMsg 0x7E = "KeyError: 126" := ⟨rfl, rfl, rfl⟩

/-- C6: the claim says a textual raw value with code 0x41/0x42 encodes
successfully as the length-prefixed UTF-8 byte sequence.  On the code,
line 436 builds t.LVBytes from the raw str before the UTF-8 conversion
at lines 438-439, which raises TypeError for any textual input; the
list-of-small-ints half of the claim does hold, each element becoming
one byte of the container. -/
theorem claim_C6_octet_string :
    attr_encode (Value.str "ab") (Option.some 0x41) =
      Except.error "TypeError: string argument without an encoding"
    ∧ attr_encode (Value.list [Value.int 1, Value.int 2]) (Option.some 0x42) =
      Except.ok (Option.some ⟨Option.some 0x42, TVal.lvbytes [1, 2]⟩,
        Option.none, Value.bytes [1, 2]) := ⟨rfl, rfl⟩

/-- C7: for every all-numeric token with a leading "0" that contains a
digit 8 or 9, str2int fails the base-8 parse (raising ValueError: it
returns neither the decimal value nor the original string), while the
token "0" parses as octal 0. -/
theorem claim_C7_octal_sharp_edge :
    (∀ cs : List Char, cs.head? = Option.some '0' →
      ('8' ∈ cs ∨ '9' ∈ cs) → (∀ c ∈ cs, isAsciiDigit c = true) →
      str2intChars cs = Except.error parseErrMsg)
    ∧ str2intChars ['0'] = Except.ok (Value.int 0) := by
  constructor
  · intro cs hh hm hd
    cases cs with
    | nil => exact Option.noConfusion hh
    | cons c0 r =>
      have hc0 : c0 = '0' := by
        have : Option.some c0 = Option.some '0' := hh
        exact Option.some.inj this
      subst hc0
      unfold str2intChars
      rw [if_neg (lower_ne_false (by decide)), if_neg (lower_ne_true (by decide))]
      rw [if_neg ?hx7, if_pos ?ho7]
      case hx7 =>
        cases r with
        | nil =>
          rcases hm with hm | hm <;> simp at hm
        | cons c1 r2 =>
          have hc1 : isAsciiDigit c1 = true := hd c1 (by simp)
          have hx1 : ('x' == c1) = false :=
            beq_eq_false_iff_ne.mpr (Ne.symm (digit_ne_char hc1 (by decide)))
          have hX1 : ('X' == c1) = false :=
            beq_eq_false_iff_ne.mpr (Ne.symm (digit_ne_char hc1 (by decide)))
          simp [begins, hx1, hX1]
      case ho7 =>
        rw [Bool.and_eq_true]
        refine ⟨by simp [begins], ?_⟩
        rw [isnumeric, Bool.and_eq_true]
        refine ⟨rfl, ?_⟩
        rw [List.all_eq_true]
        exact hd
      rw [show parseDigits 8 ('0' :: r) = parseDigitsAux 8 ('0' :: r) 0 from rfl]
      rw [parse8_err ('0' :: r) 0 hm]
      rfl
  · rfl

/-- Witness for C7 at the concrete token "08". -/
theorem claim_C7_octal_sharp_edge_witness :
    str2intChars ['0', '8'] = Except.error parseErrMsg :=
  claim_C7_octal_sharp_edge.1 ['0', '8'] rfl (by decide) (by decide)

/-- C4: parseScalar (str2int) obeys the base-sniffing rules: non-string
input is returned unchanged; case-insensitive false/true map to 0/1; a
0x/0X-prefixed token parses as hexadecimal; an all-numeric token with
leading "0" parses as octal; a "b"-prefixed all-numeric remainder parses
as binary; any other all-numeric token parses as decimal; every other
string is returned unchanged — with the spec's concrete examples. -/
theorem claim_C4_scalar_rules :
    (∀ v : Value, isStrVal v = false → str2int v = Except.ok v)
    ∧ (∀ cs : List Char, strLower cs = falseChars →
        str2intChars cs = Except.ok (Value.int 0))
    ∧ (∀ cs : List Char, strLower cs = trueChars →
        str2intChars cs = Except.ok (Value.int 1))
    ∧ (∀ ds : List Char, ds ≠ [] → (∀ c ∈ ds, isBaseDigit 16 c = true) →
        str2intChars ('0' :: 'x' :: ds) =
          Except.ok (Value.int (Int.ofNat (digitsVal 16 ds)))
        ∧ str2intChars ('0' :: 'X' :: ds) =
          Except.ok (Value.int (Int.ofNat (digitsVal 16 ds))))
    ∧ (∀ ds : List Char, (∀ c ∈ ds, isBaseDigit 8 c = true) →
        str2intChars ('0' :: ds) =
          Except.ok (Value.int (Int.ofNat (digitsVal 8 ('0' :: ds)))))
    ∧ (∀ ds : List Char, ds ≠ [] → (∀ c ∈ ds, isBaseDigit 2 c = true) →
        str2intChars ('b' :: ds) =
          Except.ok (Value.int (Int.ofNat (digitsVal 2 ds))))
    ∧ (∀ cs : List Char, cs ≠ [] → (∀ c ∈ cs, isAsciiDigit c = true) →
        cs.head? ≠ Option.some '0' →
        str2intChars cs = Except.ok (Value.int (Int.ofNat (digitsVal 10 cs))))
    ∧ str2int (Value.str "0x1A") = Except.ok (Value.int 26)
    ∧ str2int (Value.str "010") = Except.ok (Value.int 8)
    ∧ str2int (Value.str "b101") = Except.ok (Value.int 5)
    ∧ str2int (Value.str "true") = Except.ok (Value.int 1)
    ∧ str2int (Value.str "FALSE") = Except.ok (Value.int 0)
    ∧ (∀ cs : List Char, strLower cs ≠ falseChars → strLower cs ≠ trueChars →
        (begins ['0', 'x'] cs || begins ['0', 'X'] cs) = false →
        (begins ['0'] cs && isnumeric cs) = false →
        (begins ['b'] cs && isnumeric (cs.drop 1)) = false →
        isnumeric cs = false →
        str2intChars cs = Except.ok (Value.str (String.mk cs))) := by
  refine ⟨?_, ?_, ?_, ?_, s2i_octal, s2i_binary, s2i_decimal,
    rfl, rfl, rfl, rfl, rfl, ?_⟩
  · intro v h
    cases v <;> first | rfl | simp [isStrVal] at h
  · intro cs h
    unfold str2intChars
    rw [if_pos h]
  · intro cs h
    unfold str2intChars
    rw [if_neg (by rw [h]; decide), if_pos h]
  · intro ds hne hd
    refine ⟨s2i_hex_core ('0' :: 'x' :: ds) ?_ hne hd
        (lower_ne_false (by decide)) (lower_ne_true (by decide)),
      s2i_hex_core ('0' :: 'X' :: ds) ?_ hne hd
        (lower_ne_false (by decide)) (lower_ne_true (by decide))⟩
    · rw [Bool.or_eq_true]
      left
      simp [begins]
    · rw [Bool.or_eq_true]
      right
      simp [begins]
  · intro cs h1 h2 h3 h4 h5 h6
    unfold str2intChars
    rw [if_neg h1, if_neg h2, if_neg (bool_ne_true h3), if_neg (bool_ne_true h4),
      if_neg (bool_ne_true h5), if_neg (bool_ne_true h6)]

/-- Witness for C4, instantiating each quantified rule at concrete
tokens: int pass-through, hex "0x2B", octal "07", binary "b11", decimal
"77", case-insensitive "FaLsE", and pass-through "xy". -/
theorem claim_C4_scalar_rules_witness :
    str2int (Value.int 7) = Except.ok (Value.int 7)
    ∧ str2intChars ['0', 'x', '2', 'B'] = Except.ok (Value.int 43)
    ∧ str2intChars ['0', '7'] = Except.ok (Value.int 7)
    ∧ str2intChars ['b', '1', '1'] = Except.ok (Value.int 3)
    ∧ str2intChars ['7', '7'] = Except.ok (Value.int 77)
    ∧ str2intChars ['F', 'a', 'L', 's', 'E'] = Except.ok (Value.int 0)
    ∧ str2intChars ['x', 'y'] = Except.ok (Value.str (String.mk ['x', 'y'])) :=
  ⟨claim_C4_scalar_rules.1 (Value.int 7) rfl,
   (claim_C4_scalar_rules.2.2.2.1 ['2', 'B'] (by decide) (by decide)).1,
   claim_C4_scalar_rules.2.2.2.2.1 ['7'] (by decide),
   claim_C4_scalar_rules.2.2.2.2.2.1 ['1', '1'] (by decide) (by decide),
   claim_C4_scalar_rules.2.2.2.2.2.2.1 ['7', '7'] (by decide) (by decide) (by decide),
   claim_C4_scalar_rules.2.1 ['F', 'a', 'L', 's', 'E'] (by decide),
   claim_C4_scalar_rules.2.2.2.2.2.2.2.2.2.2.2.2 ['x', 'y'] (by decide) (by decide)
     (by decide) (by decide) (by decide) (by decide)⟩

/-- C8: for every integer-typed datatype code, attr_encode range-checks
the parsed value against the declared bit width: an out-of-range value
fails with the range error (never a silently truncated value), and the
spec's example encodeAttribute("999999999999", 0x20) fails likewise. -/
theorem claim_C8_range_check :
    (∀ (c : Nat) (sg : Bool) (bits : Nat), (c, sg, bits) ∈ intTypeTable →
      ∀ v : Int, intInRange sg bits v = false →
        attr_encode (Value.int v) (Option.some c) =
          Except.error (rangeErrMsg sg bits))
    ∧ attr_encode (Value.str "999999999999") (Option.some 0x20) =
        Except.error (rangeErrMsg false 8) := by
  constructor
  · intro c sg bits hmem v hr
    simp only [intTypeTable, List.mem_cons, List.not_mem_nil, or_false,
      Prod.mk.injEq] at hmem
    rcases hmem with h | h | h | h | h | h | h | h | h | h | h | h | h | h | h | h <;>
      obtain ⟨rfl, rfl, rfl⟩ := h <;> exact encodeIntBranch_oob hr
  · rfl

/-- Witness for C8: 300 does not fit the 8-bit unsigned code 0x20. -/
theorem claim_C8_range_check_witness :
    ((0x20, false, 8) ∈ intTypeTable)
    ∧ intInRange false 8 300 = false
    ∧ attr_encode (Value.int 300) (Option.some 0x20) =
        Except.error (rangeErrMsg false 8) :=
  ⟨by decide, by decide,
   claim_C8_range_check.1 0x20 false 8 (by decide) 300 (by decide)⟩

/-- The documented default ParameterSet of the spec (§8): direction 0,
tries 1, expect-reply true, empty argument list, allow-create false,
fail-exception false, read-before-write true, read-after-write true,
write-if-equal false, every remaining field absent. -/
def c9Expected : Params
  | PKey.dir => Value.int 0
  | PKey.tries => Value.int 1
  | PKey.expect_reply => Value.bool true
  | PKey.args => Value.list []
  | PKey.allow_create => Value.bool false
  | PKey.fail_exception => Value.bool false
  | PKey.read_before_write => Value.bool true
  | PKey.read_after_write => Value.bool true
  | PKey.write_if_equal => Value.bool false
  | _ => Value.none

/-- C9: extractParams applied to an empty raw mapping returns exactly the
documented default ParameterSet. -/
theorem claim_C9_defaults :
    extractParams (fun _ => Option.none) = Except.ok c9Expected := by
  have h : extractParams (fun _ => Option.none) = Except.ok defaultParams := rfl
  rw [h]
  congr 1

/-- C10: after normalization, get_cluster_from_params mutates the
parameter set only at the endpoint-id field, and only when that field
was absent (None or empty string); every other field is unchanged by the
resolver whether resolution succeeds or fails. -/
theorem claim_C10_frame :
    ∀ (dev : Device) (params : Params) (ed : EventData),
      (∀ k : PKey, k ≠ PKey.ep_id →
        (get_cluster_from_params dev params ed).2.1 k = params k)
      ∧ ((isNoneV (params PKey.ep_id)
            || pyEq (params PKey.ep_id) (Value.str "")) = false →
        (get_cluster_from_params dev params ed).2.1 = params) := by
  intro dev params ed
  constructor
  · intro k hk
    show (if (isNoneV (params PKey.ep_id)
          || pyEq (params PKey.ep_id) (Value.str "")) = true
        then setP params PKey.ep_id
          (optToVal (find_endpoint dev (params PKey.cluster_id)))
        else params) k = params k
    split
    · exact setP_other hk
    · rfl
  · intro hcond
    show (if (isNoneV (params PKey.ep_id)
          || pyEq (params PKey.ep_id) (Value.str "")) = true
        then setP params PKey.ep_id
          (optToVal (find_endpoint dev (params PKey.cluster_id)))
        else params) = params
    rw [if_neg (bool_ne_true hcond)]

def c10dev : Device := ⟨[(1, ⟨[6], []⟩)]⟩

def c10params : Params := fun k =>
  match k with
  | PKey.ep_id => Value.int 1
  | PKey.cluster_id => Value.int 6
  | _ => Value.none

/-- Witness for C10 at a parameter set whose endpoint id is present. -/
theorem claim_C10_frame_witness :
    (get_cluster_from_params c10dev c10params edEmpty).2.1 = c10params
    ∧ (get_cluster_from_params c10dev c10params edEmpty).2.1 PKey.cluster_id
        = c10params PKey.cluster_id :=
  ⟨(claim_C10_frame c10dev c10params edEmpty).2 rfl,
   (claim_C10_frame c10dev c10params edEmpty).1 PKey.cluster_id (by decide)⟩

/-- C5: for raw parameter mappings containing the expect-reply field (and
likewise the fail-exception field), extractParams sets the normalized
flag to true exactly when the field's parsed scalar equals 0 (so raw
"1"/"true" yield false and raw "0"/"false" yield true, inverting the
value), while the absent-field defaults remain expect-reply = true and
fail-exception = false. -/
theorem claim_C5_inverted_flags :
    ∀ (raw : Raw) (v w : Value) (ps : Params),
      extractParams raw = Except.ok ps →
      ((raw RKey.expect_reply = Option.some v → str2int v = Except.ok w →
          ps PKey.expect_reply = Value.bool (pyEq w (Value.int 0)))
       ∧ (raw RKey.fail_exception = Option.some v → str2int v = Except.ok w →
          ps PKey.fail_exception = Value.bool (pyEq w (Value.int 0)))
       ∧ (raw RKey.expect_reply = Option.none →
          ps PKey.expect_reply = Value.bool true)
       ∧ (raw RKey.fail_exception = Option.none →
          ps PKey.fail_exception = Value.bool false)) := by
  intro raw v w ps h
  simp only [extractParams, bindOk] at h
  obtain ⟨ps1, h1, ps2, h2, ps3, h3, ps4, h4, ps5, h5, ps6, h6, ps7, h7, ps8, h8,
    ps9, h9, ps10, h10, ps11, h11, ps12, h12, ps13, h13, ps14, h14, ps15, h15,
    ps16, h16, ps17, h17, ps18, h18, ps19, h19, ps20, h20, ps21, h21, ps22, h22,
    ps23, h23, ps24, h24, ps25, h25, ps26, h26, ps27, h27, h28⟩ := h
  have eE : ps PKey.expect_reply = ps11 PKey.expect_reply := by
    rw [stepC_frame h28 PKey.expect_reply (by decide),
      stepC_frame h27 PKey.expect_reply (by decide),
      stepC_frame h26 PKey.expect_reply (by decide),
      stepC_frame h25 PKey.expect_reply (by decide),
      stepC_frame h24 PKey.expect_reply (by decide),
      stepC_frame h23 PKey.expect_reply (by decide),
      stepC_frame h22 PKey.expect_reply (by decide),
      stepC_frame h21 PKey.expect_reply (by decide),
      stepC_frame h20 PKey.expect_reply (by decide),
      stepC_frame h19 PKey.expect_reply (by decide),
      stepC_frame h18 PKey.expect_reply (by decide),
      stepC_frame h17 PKey.expect_reply (by decide),
      stepC_frame h16 PKey.expect_reply (by decide),
      stepC_frame h15 PKey.expect_reply (by decide),
      stepC_frame h14 PKey.expect_reply (by decide),
      stepC_frame h13 PKey.expect_reply (by decide),
      stepC_frame h12 PKey.expect_reply (by decide)]
  have eF : ps PKey.fail_exception = ps12 PKey.fail_exception := by
    rw [stepC_frame h28 PKey.fail_exception (by decide),
      stepC_frame h27 PKey.fail_exception (by decide),
      stepC_frame h26 PKey.fail_exception (by decide),
      stepC_frame h25 PKey.fail_exception (by decide),
      stepC_frame h24 PKey.fail_exception (by decide),
      stepC_frame h23 PKey.fail_exception (by decide),
      stepC_frame h22 PKey.fail_exception (by decide),
      stepC_frame h21 PKey.fail_exception (by decide),
      stepC_frame h20 PKey.fail_exception (by decide),
      stepC_frame h19 PKey.fail_exception (by decide),
      stepC_frame h18 PKey.fail_exception (by decide),
      stepC_frame h17 PKey.fail_exception (by decide),
      stepC_frame h16 PKey.fail_exception (by decide),
      stepC_frame h15 PKey.fail_exception (by decide),
      stepC_frame h14 PKey.fail_exception (by decide),
      stepC_frame h13 PKey.fail_exception (by decide)]
  refine ⟨?_, ?_, ?_, ?_⟩
  · intro hv hw
    have hconv : applyConv Conv.inverted v =
        Except.ok (Value.bool (pyEq w (Value.int 0))) := by
      simp only [applyConv, hw]
      rfl
    rw [eE, stepC_hit h11 hv hconv, setP_same]
  · intro hv hw
    have hconv : applyConv Conv.inverted v =
        Except.ok (Value.bool (pyEq w (Value.int 0))) := by
      simp only [applyConv, hw]
      rfl
    rw [eF, stepC_hit h12 hv hconv, setP_same]
  · intro hv
    rw [eE, stepC_miss h11 hv,
      stepC_frame h10 PKey.expect_reply (by decide),
      manfFix_frame ps9 (by decide),
      stepC_frame h9 PKey.expect_reply (by decide),
      stepC_frame h8 PKey.expect_reply (by decide),
      stepC_frame h7 PKey.expect_reply (by decide),
      stepC_frame h6 PKey.expect_reply (by decide),
      stepC_frame h5 PKey.expect_reply (by decide),
      stepC_frame h4 PKey.expect_reply (by decide),
      stepC_frame h3 PKey.expect_reply (by decide),
      stepC_frame h2 PKey.expect_reply (by decide),
      stepC_frame h1 PKey.expect_reply (by decide)]
    rfl
  · intro hv
    rw [eF, stepC_miss h12 hv,
      stepC_frame h11 PKey.fail_exception (by decide),
      stepC_frame h10 PKey.fail_exception (by decide),
      manfFix_frame ps9 (by decide),
      stepC_frame h9 PKey.fail_exception (by decide),
      stepC_frame h8 PKey.fail_exception (by decide),
      stepC_frame h7 PKey.fail_exception (by decide),
      stepC_frame h6 PKey.fail_exception (by decide),
      stepC_frame h5 PKey.fail_exception (by decide),
      stepC_frame h4 PKey.fail_exception (by decide),
      stepC_frame h3 PKey.fail_exception (by decide),
      stepC_frame h2 PKey.fail_exception (by decide),
      stepC_frame h1 PKey.fail_exception (by decide)]
    rfl

def c5rawEx : Raw := fun k =>
  match k with
  | RKey.expect_reply => Option.some (Value.str "1")
  | RKey.fail_exception => Option.some (Value.str "false")
  | _ => Option.none

def c5psEx : Params :=
  setP (setP defaultParams PKey.expect_reply (Value.bool false))
    PKey.fail_exception (Value.bool true)

/-- Witness for C5: raw expect-reply "1" yields false and raw
fail-exception "false" yields true. -/
theorem claim_C5_inverted_flags_witness :
    extractParams c5rawEx = Except.ok c5psEx
    ∧ c5psEx PKey.expect_reply = Value.bool false
    ∧ c5psEx PKey.fail_exception = Value.bool true :=
  ⟨rfl,
   (claim_C5_inverted_flags c5rawEx (Value.str "1") (Value.int 1)
     c5psEx rfl).1 rfl rfl,
   (claim_C5_inverted_flags c5rawEx (Value.str "false") (Value.int 0)
     c5psEx rfl).2.1 rfl rfl⟩

end ZhaToolkit
